import Mathlib

/-!
Verification of the TriLingua Lexicon client core: the history store
(deduplication, capacity, ordering), CSV export, backend response
handling, speech-text cleaning, and the lookup pipeline state machine.
Definitions are a shallow embedding of the TypeScript source
(App.tsx and services/geminiService.ts); external collaborators
(the JSON parser, the Date formatter, the generative backend) are
passed as explicit parameters.
-/

/-- Language selector used by the speech call signature. -/
inductive Lang where
  | jp
  | en
  | zh
deriving DecidableEq, Repr

/-- Example sentence record from types.ts. -/
structure ExampleSentence where
  text : String
  translation : String
  lang : Lang
deriving DecidableEq, Repr

/-- Trilingual string triple (coreWord, pronunciation shapes in types.ts). -/
structure LangTriple where
  jp : String
  en : String
  zh : String
deriving DecidableEq, Repr

/-- Definitions quadruple from types.ts, including the furigana variant. -/
structure Definitions where
  jp : String
  jp_furigana : String
  en : String
  zh : String
deriving DecidableEq, Repr

/-- Related-words record from types.ts. -/
structure Related where
  synonyms : List String
  antonyms : List String
deriving DecidableEq, Repr

/-- WordData record from types.ts. -/
structure WordData where
  inputWord : String
  coreWord : LangTriple
  pronunciation : LangTriple
  definitions : Definitions
  examples : List ExampleSentence
  etymology : String
  related : Related
deriving DecidableEq, Repr

/-- HistoryItem as built in App.tsx handleSearch:
id, timestamp, word, data, optional imageUrl. -/
structure HistoryItem where
  id : String
  timestamp : Nat
  word : String
  data : WordData
  imageUrl : Option String
deriving DecidableEq, Repr

/-- The filter step of the history insert in App.tsx handleSearch:
keeps an item when its coreWord.jp differs from the new data AND its
coreWord.en differs (so an item matching on either field is removed). -/
def dedupFilter (data : WordData) (prev : List HistoryItem) : List HistoryItem :=
  prev.filter (fun item =>
    (item.data.coreWord.jp != data.coreWord.jp) &&
    (item.data.coreWord.en != data.coreWord.en))

/-- The setHistory update in App.tsx handleSearch: filter duplicates,
prepend the new item, keep the first 50. -/
def insertHistory (newItem : HistoryItem) (prev : List HistoryItem) : List HistoryItem :=
  (newItem :: dedupFilter newItem.data prev).take 50

/-- The history-loading effect in App.tsx: a missing blob leaves the
initial empty history; a blob that fails to parse is caught and also
leaves the empty history; a parsed blob becomes the history. The JSON
parser is external and passed as a parameter. -/
def loadHistory (saved : Option String)
    (parseJson : String → Option (List HistoryItem)) : List HistoryItem :=
  match saved with
  | none => []
  | some s =>
    match parseJson s with
    | some h => h
    | none => []

/-- Sample stored item used by concrete witnesses. -/
def wOld : HistoryItem :=
  { id := "1", timestamp := 1, word := "旧",
    data := { inputWord := "old",
              coreWord := { jp := "旧", en := "old", zh := "旧" },
              pronunciation := { jp := "きゅう", en := "old", zh := "jiu" },
              definitions := { jp := "d", jp_furigana := "d", en := "d", zh := "d" },
              examples := [], etymology := "", related := { synonyms := [], antonyms := [] } },
    imageUrl := none }

/-- Sample new item used by concrete witnesses: same coreWord.jp as wOld
but a different coreWord.en. -/
def wNewJpMatch : HistoryItem :=
  { id := "2", timestamp := 2, word := "旧",
    data := { inputWord := "former",
              coreWord := { jp := "旧", en := "former", zh := "former" },
              pronunciation := { jp := "きゅう", en := "f", zh := "f" },
              definitions := { jp := "e", jp_furigana := "e", en := "e", zh := "e" },
              examples := [], etymology := "", related := { synonyms := [], antonyms := [] } },
    imageUrl := none }

/-- Sample new item whose coreWord matches wOld on neither field. -/
def wNewFresh : HistoryItem :=
  { id := "3", timestamp := 3, word := "新",
    data := { inputWord := "new",
              coreWord := { jp := "新", en := "new", zh := "新" },
              pronunciation := { jp := "しん", en := "n", zh := "xin" },
              definitions := { jp := "f", jp_furigana := "f", en := "f", zh := "f" },
              examples := [], etymology := "", related := { synonyms := [], antonyms := [] } },
    imageUrl := none }

/-- The quote-doubling replace in App.tsx exportHistory:
s.replace of each double quote by two double quotes, at character level. -/
def escapeQuotes : List Char → List Char
  | [] => []
  | c :: rest =>
    if c = '"' then '"' :: '"' :: escapeQuotes rest else c :: escapeQuotes rest

/-- The definition-column formatting in App.tsx exportHistory: the field
with internal double quotes doubled, wrapped in double quotes. -/
def quoteField (s : String) : String :=
  String.mk ('"' :: (escapeQuotes s.data ++ ['"']))

/-- Modelled from the spec: the collapse half of standard CSV unescaping
(each doubled double quote becomes one); no CSV parser exists in the
source. -/
def collapseQuotes : List Char → List Char
  | [] => []
  | [c] => [c]
  | c :: d :: rest =>
    if c = '"' ∧ d = '"' then '"' :: collapseQuotes rest
    else c :: collapseQuotes (d :: rest)

/-- Modelled from the spec: standard CSV field unescaping — strip the
outer double quotes, collapse doubled double quotes; no CSV parser
exists in the source. -/
def csvUnescape (s : String) : String :=
  match s.data with
  | '"' :: rest =>
    if rest.getLast? = some '"' then String.mk (collapseQuotes rest.dropLast)
    else String.mk ('"' :: rest)
  | l => String.mk l

/-- The header row of App.tsx exportHistory. -/
def csvHeaders : List String :=
  ["Timestamp", "Input", "JP", "EN", "ZH", "JP_Pron", "EN_Pron",
   "Definition_JP", "Definition_EN"]

/-- One data row of App.tsx exportHistory; the Date toISOString renderer
is external and passed as the iso parameter. Only the two definition
columns go through the quoting step. -/
def historyRow (iso : Nat → String) (h : HistoryItem) : List String :=
  [iso h.timestamp, h.data.inputWord, h.data.coreWord.jp, h.data.coreWord.en,
   h.data.coreWord.zh, h.data.pronunciation.jp, h.data.pronunciation.en,
   quoteField h.data.definitions.jp, quoteField h.data.definitions.en]

/-- App.tsx exportHistory: none when the history is empty (early return,
no file produced), otherwise the joined CSV text. -/
def exportCsv (iso : Nat → String) (history : List HistoryItem) : Option String :=
  if history.length = 0 then none
  else some (String.intercalate "\n"
    (String.intercalate "," csvHeaders ::
      history.map (fun h => String.intercalate "," (historyRow iso h))))

/-- A fixed external timestamp renderer used by concrete examples. -/
def iso0 : Nat → String := fun _ => "1970-01-01T00:00:00.000Z"

/-- Sample item whose Input field contains a comma and no double quote. -/
def wComma : HistoryItem :=
  { id := "4", timestamp := 4, word := "w",
    data := { inputWord := "a,b",
              coreWord := { jp := "w", en := "w", zh := "w" },
              pronunciation := { jp := "w", en := "w", zh := "w" },
              definitions := { jp := "d", jp_furigana := "d", en := "d", zh := "d" },
              examples := [], etymology := "", related := { synonyms := [], antonyms := [] } },
    imageUrl := none }

/-- Sample item whose definitions.en contains a double quote and a comma. -/
def wQuote : HistoryItem :=
  { id := "5", timestamp := 5, word := "w",
    data := { inputWord := "w",
              coreWord := { jp := "w", en := "w", zh := "w" },
              pronunciation := { jp := "w", en := "w", zh := "w" },
              definitions := { jp := "d", jp_furigana := "d",
                               en := "say \"hi\", ok", zh := "d" },
              examples := [], etymology := "", related := { synonyms := [], antonyms := [] } },
    imageUrl := none }

/-- Minimal JSON value shape, the result of the external JSON parse. -/
inductive Json where
  | jnull
  | jbool (b : Bool)
  | jnum (n : Int)
  | jstr (s : String)
  | jarr (elems : List Json)
  | jobj (fields : List (String × Json))

/-- Error shapes raised inside GeminiService calls: the configuration
error thrown by getClient, the no-text error thrown in the analyze
methods, and the parse error thrown by the external JSON parse. -/
inductive BackendError where
  | configError (msg : String)
  | noText (msg : String)
  | parseError
deriving DecidableEq, Repr

/-- GeminiService.getClient: returns the already-initialized client if
present; otherwise throws the missing-key error when the environment has
no API key, else initializes from the key. The client is represented by
the key string it was built from. -/
def getClient (ai env : Option String) : Except String String :=
  match ai with
  | some c => Except.ok c
  | none =>
    match env with
    | none => Except.error "API Key is missing. Please set the API_KEY environment variable in your Vercel settings or .env file."
    | some k => Except.ok k

/-- GeminiService.analyzeWord response handling: getClient first (its
throw propagates), then the no-text guard (a missing or empty text field
is falsy and throws), then the external JSON parse whose failure throws;
a successfully parsed payload is returned as-is — the cast to WordData
performs no runtime field validation. -/
def analyzeWord (ai env : Option String) (responseText : Option String)
    (parse : String → Option Json) : Except BackendError Json :=
  match getClient ai env with
  | Except.error msg => Except.error (BackendError.configError msg)
  | Except.ok _ =>
    match responseText with
    | none => Except.error (BackendError.noText "No text response from Gemini")
    | some t =>
      if t = "" then Except.error (BackendError.noText "No text response from Gemini")
      else
        match parse t with
        | none => Except.error BackendError.parseError
        | some j => Except.ok j

/-- GeminiService.analyzeSentence response handling: identical control
flow to analyzeWord (getClient, no-text guard, JSON parse, unvalidated
cast). -/
def analyzeSentence (ai env : Option String) (responseText : Option String)
    (parse : String → Option Json) : Except BackendError Json :=
  match getClient ai env with
  | Except.error msg => Except.error (BackendError.configError msg)
  | Except.ok _ =>
    match responseText with
    | none => Except.error (BackendError.noText "No text response from Gemini")
    | some t =>
      if t = "" then Except.error (BackendError.noText "No text response from Gemini")
      else
        match parse t with
        | none => Except.error BackendError.parseError
        | some j => Except.ok j

/-- Modelled from the spec: presence of the six required word-schema
fields (coreWord, pronunciation, definitions, examples, etymology,
related) in a parsed payload; the source declares them in the request
schema but performs no client-side check. -/
def hasRequiredWordFields (j : Json) : Bool :=
  match j with
  | Json.jobj fields =>
    ["coreWord", "pronunciation", "definitions", "examples",
     "etymology", "related"].all
      (fun k => fields.any (fun f => f.1 == k))
  | _ => false

/-- A concrete stand-in for the external JSON parse that recognizes the
empty-object document. -/
def parseEmptyObj : String → Option Json :=
  fun s => if s = "\x7b\x7d" then some (Json.jobj []) else none

/-- One part of a backend image response: optional text, optional inline
base64 data. -/
structure ResponsePart where
  text : Option String
  inlineData : Option String
deriving DecidableEq, Repr

/-- The part-scanning loop of GeminiService.generateImage: the first
part carrying inline data yields the data URI. -/
def firstInlineImage : List ResponsePart → Option String
  | [] => none
  | p :: rest =>
    match p.inlineData with
    | some d => some ("data:image/png;base64," ++ d)
    | none => firstInlineImage rest

/-- GeminiService.generateImage: the whole body sits in a try/catch that
returns null on any throw, so a getClient configuration throw and any
backend failure both yield none; a successful response is scanned for
its first inline-data part. -/
def generateImage (ai env : Option String)
    (backend : Except String (List ResponsePart)) : Option String :=
  match getClient ai env with
  | Except.error _ => none
  | Except.ok _ =>
    match backend with
    | Except.error _ => none
    | Except.ok parts => firstInlineImage parts

/-- The tag-skipping state machine of the regex replace removing
every maximal run that starts at an unconsumed left angle bracket,
continues through characters other than a right angle bracket, and ends
at an optional right angle bracket. The Bool is true while inside such a
run. -/
def stripTagsAux : Bool → List Char → List Char
  | _, [] => []
  | true, c :: rest =>
    if c = '>' then stripTagsAux false rest else stripTagsAux true rest
  | false, c :: rest =>
    if c = '<' then stripTagsAux true rest else c :: stripTagsAux false rest

/-- The speech-cleaning replace in GeminiService.generateSpeech: the
global regex replace of tag runs by the empty string. -/
def cleanSpeechText (s : String) : String :=
  String.mk (stripTagsAux false s.data)

/-- The voice selection in GeminiService.generateSpeech. -/
def voiceName (lang : Lang) : String :=
  match lang with
  | Lang.jp => "Kore"
  | Lang.en => "Fenrir"
  | Lang.zh => "Puck"

/-- GeminiService.generateSpeech up to the backend request: the cleaned
text and chosen voice are computed, then the request runs inside a
try/catch that swallows every throw (including the getClient
configuration throw), so the caller never sees an error; the result is
the request that reaches the backend, or none when nothing is sent. -/
def generateSpeech (ai env : Option String) (text : String) (lang : Lang) :
    Option (String × String) :=
  let cleanText := cleanSpeechText text
  let voice := voiceName lang
  match getClient ai env with
  | Except.error _ => none
  | Except.ok _ => some (cleanText, voice)

/-- LoadingState from types.ts. -/
inductive LoadingState where
  | IDLE
  | ANALYZING
  | GENERATING_IMAGE
  | COMPLETE
  | ERROR
deriving DecidableEq, Repr

/-- The App component state touched by handleSearch. -/
structure AppState where
  currentData : Option WordData
  currentImage : Option String
  loadingState : LoadingState
  errorMsg : Option String
  history : List HistoryItem
deriving DecidableEq, Repr

/-- The query.trim() guard in handleSearch: drop leading and trailing
whitespace, at character level so that it evaluates by reduction. -/
def jsTrim (s : String) : String :=
  String.mk
    (((s.data.dropWhile Char.isWhitespace).reverse.dropWhile
        Char.isWhitespace).reverse)

/-- JavaScript truthiness on an optional string: an absent value and the
empty string are both falsy (the image truthiness guard and the
image-or-undefined expression in handleSearch). -/
def orUndefined (o : Option String) : Option String :=
  match o with
  | some s => if s = "" then none else some s
  | none => none

/-- App.tsx handleSearch: the empty-query guard, the reset of error,
data and image, then the analysis outcome — an analysis throw is caught
and sets the error state; on success the image outcome (always an
optional value, since generateImage never throws) is recorded, the state
completes, and the new item is inserted into the history. The analysis
and image outcomes and the clock are passed as parameters. -/
def handleSearch (query : String) (analysis : Except BackendError WordData)
    (image : Option String) (now : Nat) (s : AppState) : AppState :=
  if (jsTrim query) = "" then s
  else
    let s1 := { s with
                loadingState := LoadingState.ANALYZING
                errorMsg := none
                currentData := none
                currentImage := none }
    match analysis with
    | Except.error _ =>
      { s1 with
        errorMsg := some "Unable to analyze the word. Please check your API key or try again."
        loadingState := LoadingState.ERROR }
    | Except.ok data =>
      let s2 := { s1 with
                  currentData := some data
                  loadingState := LoadingState.GENERATING_IMAGE }
      let s3 :=
        match orUndefined image with
        | some img => { s2 with currentImage := some img }
        | none => s2
      let s4 := { s3 with loadingState := LoadingState.COMPLETE }
      let newItem : HistoryItem :=
        { id := toString now, timestamp := now, word := data.coreWord.jp,
          data := data, imageUrl := orUndefined image }
      { s4 with history := insertHistory newItem s4.history }

/-- The initial App state used by concrete witnesses. -/
def s0 : AppState :=
  { currentData := none, currentImage := none,
    loadingState := LoadingState.IDLE, errorMsg := none, history := [] }

/-- C1: for every history insert of a word record, every existing item
whose coreWord.jp equals the new record coreWord.jp OR whose coreWord.en
equals the new record coreWord.en is removed by the dedup filter, and the
new item is prepended at the front of the result. -/
theorem insert_dedup_removes_either_match (newItem : HistoryItem)
    (prev : List HistoryItem) (item : HistoryItem)
    (_hmem : item ∈ prev)
    (hmatch : item.data.coreWord.jp = newItem.data.coreWord.jp ∨
              item.data.coreWord.en = newItem.data.coreWord.en) :
    item ∉ dedupFilter newItem.data prev ∧
    (insertHistory newItem prev).head? = some newItem := by
  constructor
  · intro hin
    rw [dedupFilter, List.mem_filter] at hin
    rcases hin with ⟨-, hp⟩
    simp only [Bool.and_eq_true, bne_iff_ne, ne_eq] at hp
    rcases hmatch with h | h
    · exact hp.1 h
    · exact hp.2 h
  · rw [insertHistory]
    rfl

/-- Witness for C1 at a concrete input: an item matching only on
coreWord.jp is removed and the new item sits at the front. -/
theorem insert_dedup_removes_either_match_witness :
    wOld ∈ [wOld] ∧
    (wOld.data.coreWord.jp = wNewJpMatch.data.coreWord.jp ∨
     wOld.data.coreWord.en = wNewJpMatch.data.coreWord.en) ∧
    (wOld ∉ dedupFilter wNewJpMatch.data [wOld] ∧
     (insertHistory wNewJpMatch [wOld]).head? = some wNewJpMatch) :=
  ⟨by decide, Or.inl (by decide),
   insert_dedup_removes_either_match wNewJpMatch [wOld] wOld (by decide)
     (Or.inl (by decide))⟩

/-- C2: a history of length at most 50 stays at length at most 50 after
any insert, and inserting a non-duplicate item into a 50-item-full
history drops exactly the oldest (last) item. -/
theorem insert_capacity (newItem : HistoryItem) (prev : List HistoryItem)
    (hfull : prev.length = 50)
    (hnodup : ∀ item ∈ prev,
      item.data.coreWord.jp ≠ newItem.data.coreWord.jp ∧
      item.data.coreWord.en ≠ newItem.data.coreWord.en) :
    (∀ h : List HistoryItem, h.length ≤ 50 →
      (insertHistory newItem h).length ≤ 50) ∧
    insertHistory newItem prev = newItem :: prev.dropLast := by
  constructor
  · intro h _
    rw [insertHistory, List.length_take]
    exact min_le_left _ _
  · have hkeep : dedupFilter newItem.data prev = prev := by
      rw [dedupFilter, List.filter_eq_self]
      intro item hmem
      rcases hnodup item hmem with ⟨h1, h2⟩
      simp only [Bool.and_eq_true, bne_iff_ne, ne_eq]
      exact ⟨h1, h2⟩
    rw [insertHistory, hkeep, List.take_succ_cons,
        List.dropLast_eq_take, hfull]

/-- Witness for C2 at a concrete input: a full history of 50 copies of
wOld, inserting the fresh item keeps length 50 and drops the last. -/
theorem insert_capacity_witness :
    (List.replicate 50 wOld).length = 50 ∧
    ((∀ h : List HistoryItem, h.length ≤ 50 →
        (insertHistory wNewFresh h).length ≤ 50) ∧
      insertHistory wNewFresh (List.replicate 50 wOld) =
        wNewFresh :: (List.replicate 50 wOld).dropLast) :=
  ⟨by simp,
   insert_capacity wNewFresh (List.replicate 50 wOld) (by simp)
     (by
       intro item hmem
       rw [List.mem_replicate] at hmem
       rw [hmem.2]
       exact ⟨by decide, by decide⟩)⟩

/-- C8: for every persisted blob value that is not valid JSON (the
external parser fails on it), loading the history yields the empty
sequence; the loader is total, so no error reaches the caller. -/
theorem load_corrupt_blob_empty (s : String)
    (parseJson : String → Option (List HistoryItem))
    (hbad : parseJson s = none) :
    loadHistory (some s) parseJson = [] := by
  rw [loadHistory, hbad]

/-- Witness for C8 at a concrete input: a parser rejecting every blob. -/
theorem load_corrupt_blob_empty_witness :
    (fun _ : String => (none : Option (List HistoryItem))) "not json" = none ∧
    loadHistory (some "not json")
      (fun _ => (none : Option (List HistoryItem))) = [] :=
  ⟨rfl, load_corrupt_blob_empty "not json" (fun _ => none) rfl⟩

lemma collapseQuotes_cons_ne (c : Char) (l : List Char) (hc : c ≠ '"') :
    collapseQuotes (c :: l) = c :: collapseQuotes l := by
  cases l with
  | nil => rfl
  | cons d rest => simp [collapseQuotes, hc]

lemma collapseQuotes_escapeQuotes (l : List Char) :
    collapseQuotes (escapeQuotes l) = l := by
  induction l with
  | nil => rfl
  | cons c rest ih =>
    by_cases hc : c = '"'
    · subst hc
      simp [escapeQuotes, collapseQuotes, ih]
    · simp [escapeQuotes, hc, collapseQuotes_cons_ne c _ hc, ih]

lemma quoteField_data (s : String) :
    (quoteField s).data = ('"' :: escapeQuotes s.data) ++ ['"'] := by
  simp [quoteField]

lemma csvUnescape_quoteField (s : String) : csvUnescape (quoteField s) = s := by
  show csvUnescape (String.mk ('"' :: (escapeQuotes s.data ++ ['"']))) = s
  rw [csvUnescape]
  simp only [List.getLast?_concat, if_pos rfl, List.dropLast_concat,
    collapseQuotes_escapeQuotes, if_true]

/-- C5 counterexample: the Input column of a row is emitted verbatim —
for an item whose inputWord is "a,b" the emitted field is exactly "a,b",
which contains a comma yet contains no double quote at all, so it is not
wrapped in double quotes as the claim requires for every column. -/
theorem export_escaping_counterexample :
    (historyRow iso0 wComma)[1]? = some "a,b" ∧
    ',' ∈ "a,b".data ∧
    '"' ∉ "a,b".data :=
  ⟨rfl, by decide, by decide⟩

/-- C5 amended: only the Definition_JP and Definition_EN columns are
wrapped in double quotes with internal double quotes doubled (always,
whatever their content, and unescaping recovers the original); the other
columns — Input shown here — are emitted verbatim with no escaping. -/
theorem export_escaping_amended (iso : Nat → String) (h : HistoryItem) :
    (historyRow iso h)[7]? = some (quoteField h.data.definitions.jp) ∧
    (historyRow iso h)[8]? = some (quoteField h.data.definitions.en) ∧
    csvUnescape (quoteField h.data.definitions.jp) = h.data.definitions.jp ∧
    csvUnescape (quoteField h.data.definitions.en) = h.data.definitions.en ∧
    (historyRow iso h)[1]? = some h.data.inputWord :=
  ⟨rfl, rfl, csvUnescape_quoteField _, csvUnescape_quoteField _, rfl⟩

/-- C7: for every stored record whose definitions.en contains a double
quote and a comma, the exported Definition_EN field is that string
wrapped in double quotes with internal double quotes doubled, and
standard CSV unescaping of that field recovers the original exactly. -/
theorem csv_definition_roundtrip (iso : Nat → String) (h : HistoryItem)
    (_h1 : '"' ∈ h.data.definitions.en.data)
    (_h2 : ',' ∈ h.data.definitions.en.data) :
    (historyRow iso h)[8]? = some (quoteField h.data.definitions.en) ∧
    (quoteField h.data.definitions.en).data.head? = some '"' ∧
    (quoteField h.data.definitions.en).data.getLast? = some '"' ∧
    csvUnescape (quoteField h.data.definitions.en) = h.data.definitions.en :=
  ⟨rfl, rfl, by rw [quoteField_data]; exact List.getLast?_concat _,
   csvUnescape_quoteField _⟩

/-- Witness for C7 at a concrete input containing both a double quote
and a comma. -/
theorem csv_definition_roundtrip_witness :
    '"' ∈ wQuote.data.definitions.en.data ∧
    ',' ∈ wQuote.data.definitions.en.data ∧
    ((historyRow iso0 wQuote)[8]? =
        some (quoteField wQuote.data.definitions.en) ∧
      (quoteField wQuote.data.definitions.en).data.head? = some '"' ∧
      (quoteField wQuote.data.definitions.en).data.getLast? = some '"' ∧
      csvUnescape (quoteField wQuote.data.definitions.en) =
        wQuote.data.definitions.en) :=
  ⟨by decide, by decide,
   csv_definition_roundtrip iso0 wQuote (by decide) (by decide)⟩

/-- C3 counterexample: a backend response that is valid JSON but misses
every required field — the empty object document — is returned by
analyzeWord as a success, not rejected: no client-side field validation
exists. -/
theorem analyzeWord_missing_fields_counterexample :
    parseEmptyObj "\x7b\x7d" = some (Json.jobj []) ∧
    hasRequiredWordFields (Json.jobj []) = false ∧
    analyzeWord (some "key") none (some "\x7b\x7d") parseEmptyObj =
      Except.ok (Json.jobj []) :=
  ⟨rfl, rfl, rfl⟩

/-- C3 amended: analyzeWord raises an error when the backend response
has no text, has empty text, or is not valid JSON; a payload that parses
as JSON is returned as-is with no client-side check of required fields
(those are requested through the response schema only). -/
theorem analyzeWord_validation_amended (c : String) (env : Option String)
    (parse : String → Option Json) (t : String) (j : Json)
    (hne : t ≠ "") :
    analyzeWord (some c) env none parse =
      Except.error (BackendError.noText "No text response from Gemini") ∧
    analyzeWord (some c) env (some "") parse =
      Except.error (BackendError.noText "No text response from Gemini") ∧
    (parse t = none → analyzeWord (some c) env (some t) parse =
      Except.error BackendError.parseError) ∧
    (parse t = some j → analyzeWord (some c) env (some t) parse =
      Except.ok j) := by
  refine ⟨rfl, rfl, ?_, ?_⟩
  · intro hp
    simp [analyzeWord, getClient, hne, hp]
  · intro hp
    simp [analyzeWord, getClient, hne, hp]

/-- Witness for C3 amended at concrete inputs: the empty-object parser
with a nonempty document. -/
theorem analyzeWord_validation_amended_witness :
    "\x7b\x7d" ≠ "" ∧
    (analyzeWord (some "key") none none parseEmptyObj =
        Except.error (BackendError.noText "No text response from Gemini") ∧
      analyzeWord (some "key") none (some "") parseEmptyObj =
        Except.error (BackendError.noText "No text response from Gemini") ∧
      (parseEmptyObj "\x7b\x7d" = none →
        analyzeWord (some "key") none (some "\x7b\x7d") parseEmptyObj =
          Except.error BackendError.parseError) ∧
      (parseEmptyObj "\x7b\x7d" = some (Json.jobj []) →
        analyzeWord (some "key") none (some "\x7b\x7d") parseEmptyObj =
          Except.ok (Json.jobj []))) :=
  ⟨by decide,
   analyzeWord_validation_amended "key" none parseEmptyObj "\x7b\x7d"
     (Json.jobj []) (by decide)⟩

/-- C4 counterexample: speech cleaning does not remove the reading text
inside a ruby annotation — the documented input does not map to the
base-text-only string the claim states. -/
theorem speech_cleaning_counterexample :
    cleanSpeechText "<ruby>日本<rt>にほん</rt></ruby>は" ≠ "日本は" := by
  decide

/-- C4 amended: speech cleaning removes only the tag markup and keeps
all text content in order, reading text included, so the documented
input maps to the base text followed by its reading; that cleaned string
is what reaches the backend in the speech request. -/
theorem speech_cleaning_amended :
    cleanSpeechText "<ruby>日本<rt>にほん</rt></ruby>は" = "日本にほんは" ∧
    generateSpeech (some "key") none "<ruby>日本<rt>にほん</rt></ruby>は"
      Lang.jp = some ("日本にほんは", "Kore") :=
  ⟨rfl, rfl⟩

/-- C6 counterexample: with the credential absent everywhere, an image
call whose backend would have returned inline data still yields none —
the same value as an ordinary miss — and a speech call yields none
silently; neither surfaces a configuration error to its caller. -/
theorem config_error_counterexample :
    generateImage none none
      (Except.ok [{ text := none, inlineData := some "abc" }]) = none ∧
    generateSpeech none none "hello" Lang.en = none :=
  ⟨rfl, rfl⟩

/-- C6 amended: with the credential absent, word analysis and sentence
analysis fail immediately with the configuration error; image generation
returns none and speech generation sends nothing, both swallowing the
configuration error at the media boundary instead of surfacing it. -/
theorem config_error_amended :
    (∀ (rt : Option String) (parse : String → Option Json),
      analyzeWord none none rt parse =
        Except.error (BackendError.configError
          "API Key is missing. Please set the API_KEY environment variable in your Vercel settings or .env file.")) ∧
    (∀ (rt : Option String) (parse : String → Option Json),
      analyzeSentence none none rt parse =
        Except.error (BackendError.configError
          "API Key is missing. Please set the API_KEY environment variable in your Vercel settings or .env file.")) ∧
    (∀ backend : Except String (List ResponsePart),
      generateImage none none backend = none) ∧
    (∀ (text : String) (lang : Lang),
      generateSpeech none none text lang = none) :=
  ⟨fun _ _ => rfl, fun _ _ => rfl, fun _ => rfl, fun _ _ => rfl⟩

/-- C9: a backend image failure yields none from generateImage, and a
submission whose analysis succeeds but whose image generation yields
nothing still reaches the Complete state with no error, no displayed
image, and a history item carrying no image. -/
theorem image_failure_completes (query : String) (data : WordData)
    (now : Nat) (s : AppState) (hq : jsTrim query ≠ "") :
    (∀ (c : String) (err : String),
      generateImage (some c) none (Except.error err) = none) ∧
    (handleSearch query (Except.ok data) none now s).loadingState =
      LoadingState.COMPLETE ∧
    (handleSearch query (Except.ok data) none now s).errorMsg = none ∧
    (handleSearch query (Except.ok data) none now s).currentImage = none ∧
    (handleSearch query (Except.ok data) none now s).history.head? =
      some { id := toString now, timestamp := now, word := data.coreWord.jp,
             data := data, imageUrl := none } := by
  refine ⟨fun _ _ => rfl, ?_, ?_, ?_, ?_⟩ <;>
    (rw [handleSearch, if_neg hq]; try rfl)

/-- Witness for C9 at a concrete input. -/
theorem image_failure_completes_witness :
    jsTrim "cat" ≠ "" ∧
    ((∀ (c : String) (err : String),
        generateImage (some c) none (Except.error err) = none) ∧
      (handleSearch "cat" (Except.ok wNewFresh.data) none 7 s0).loadingState =
        LoadingState.COMPLETE ∧
      (handleSearch "cat" (Except.ok wNewFresh.data) none 7 s0).errorMsg = none ∧
      (handleSearch "cat" (Except.ok wNewFresh.data) none 7 s0).currentImage = none ∧
      (handleSearch "cat" (Except.ok wNewFresh.data) none 7 s0).history.head? =
        some { id := toString 7, timestamp := 7,
               word := wNewFresh.data.coreWord.jp,
               data := wNewFresh.data, imageUrl := none }) :=
  ⟨by decide,
   image_failure_completes "cat" wNewFresh.data 7 s0 (by decide)⟩

/-- C10: a submission whose analysis fails leaves the history exactly as
it was — no insertion, removal or reordering — so only successful
analyses ever modify the history. -/
theorem analysis_failure_preserves_history (query : String)
    (e : BackendError) (image : Option String) (now : Nat) (s : AppState) :
    (handleSearch query (Except.error e) image now s).history = s.history := by
  rw [handleSearch]
  by_cases hq : jsTrim query = ""
  · rw [if_pos hq]
  · rw [if_neg hq]
